import Mathlib

/-!
A verification development for the `bgg_api` client library.

The embedding covers the two core components of the library:

* the request/retry/backoff/throttle controller (`BGGClient._request` in
  `bgg_api/client.py`), modelled as a pure state-transition function over
  rational-valued backoff and clock state, with the HTTP transport
  abstracted as a function from attempt index to an outcome;
* the lazy data-materialization protocol of the domain models
  (`Game`, `User`, `Collection`, `Ratings` in `bgg_api/models.py`),
  modelled as explicit state-passing functions that also report how many
  controller requests each operation issued.

XML documents are modelled as a simple rose tree with string attributes,
with the few XPath lookups the code performs (`.//item[@id='..']`,
`.//item[@id='..']/comments`, direct-child `findall`) defined directly.
-/

/-- An XML element: tag, attribute list, child elements.  Mirrors the
subset of `lxml.etree._Element` structure the library reads. -/
inductive XmlNode where
  | mk (tag : String) (attrs : List (String × String)) (children : List XmlNode)

def XmlNode.tag : XmlNode → String
  | .mk t _ _ => t

def XmlNode.attrs : XmlNode → List (String × String)
  | .mk _ a _ => a

def XmlNode.children : XmlNode → List XmlNode
  | .mk _ _ c => c

/-- Model of `element.get(key)`: first attribute with the given name, if any. -/
def attrGet (n : XmlNode) (key : String) : Option String :=
  (n.attrs.find? (fun p => p.1 == key)).map (fun p => p.2)

/-- Model of `element.get(key, default)` with a string default. -/
def attrGetD (n : XmlNode) (key dflt : String) : String :=
  (attrGet n key).getD dflt

/-- Model of `element.findall(tag)`: direct children with the given tag, in
document order. -/
def childrenWithTag (n : XmlNode) (t : String) : List XmlNode :=
  n.children.filter (fun c => c.tag == t)

/-- The numeric value of a decimal digit character. -/
def digitVal? (c : Char) : Option Nat :=
  if c.isDigit then some (c.toNat - '0'.toNat) else none

def digitsToNatAux : List Char → Nat → Option Nat
  | [], acc => some acc
  | c :: cs, acc =>
    match digitVal? c with
    | none => none
    | some d => digitsToNatAux cs (acc * 10 + d)

/-- A digit string to a natural number; `none` when empty or when any
character is not a decimal digit. -/
def digitsToNat? (cs : List Char) : Option Nat :=
  match cs with
  | [] => none
  | _ => digitsToNatAux cs 0

/-- An optionally signed digit string to an integer. -/
def signedInt? : List Char → Option Int
  | '-' :: cs => (digitsToNat? cs).map (fun n => -(n : Int))
  | '+' :: cs => (digitsToNat? cs).map (fun n => (n : Int))
  | cs => (digitsToNat? cs).map (fun n => (n : Int))

/-- A model of Python `int(s)` for optionally signed decimal strings;
`none` models a raised `ValueError` (or `TypeError` on `int(None)`,
handled by the callers through `Option.bind`). -/
def pyInt? (s : String) : Option Int :=
  signedInt? s.data

/-- Splits a character list at its first `'.'`, when there is one. -/
def splitDot : List Char → List Char × Option (List Char)
  | [] => ([], none)
  | c :: cs =>
    if c = '.' then ([], some cs)
    else
      let r := splitDot cs
      (c :: r.1, r.2)

/-- A model of Python `float(s)` restricted to optionally signed plain
decimal literals (digits, optional fractional part) — everything the
ratings feed produces.  `none` models a raised `ValueError`. -/
def parseFloat? (s : String) : Option ℚ :=
  match splitDot s.data with
  | (ip, none) => (signedInt? ip).map (fun i => (i : ℚ))
  | (ip, some fp) =>
    match signedInt? ip, digitsToNat? fp with
    | some i, some f =>
      if 0 ≤ i then some ((i : ℚ) + (f : ℚ) / (10 : ℚ) ^ fp.length)
      else some ((i : ℚ) - (f : ℚ) / (10 : ℚ) ^ fp.length)
    | _, _ => none

/-- Model of `math.ceil(a / b)` for integer `a` and positive integer `b`,
computed in integer arithmetic as `-((-a) // b)`; the theorem
`ceilDiv_eq_ceil` below identifies it with `⌈a / b⌉` over `ℚ`. -/
def ceilDiv (a b : Int) : Int :=
  -((-a).fdiv b)

mutual
/-- All proper descendants of an element in document (preorder) order;
the element set matched by the XPath prefix `.//`. -/
def descendants : XmlNode → List XmlNode
  | .mk _ _ cs => descendantsList cs
def descendantsList : List XmlNode → List XmlNode
  | [] => []
  | c :: cs => c :: (descendants c ++ descendantsList cs)
end

/-- Model of `root.find(f".//item[@id='{id}']")`: first descendant `item` element
whose `id` attribute equals the decimal rendering of `id`. -/
def findItemById (root : XmlNode) (id : Int) : Option XmlNode :=
  (descendants root).find?
    (fun n => n.tag == "item" && attrGet n "id" == some (toString id))

/-- Model of `root.find(f".//item[@id='{id}']/comments")`: first `comments` child
of a matching descendant `item`, in document order. -/
def findCommentsOfItem (root : XmlNode) (id : Int) : Option XmlNode :=
  (((descendants root).filter
      (fun n => n.tag == "item" && attrGet n "id" == some (toString id))).flatMap
    (fun n => childrenWithTag n "comments")).head?

example :
    findItemById
      (.mk "items" [] [.mk "item" [("id", "42")] [], .mk "item" [("id", "7")] []]) 7
      = some (.mk "item" [("id", "7")] []) := rfl

/-!  ## The request/retry/backoff/throttle controller

`BGGClient._request` in `bgg_api/client.py`.  Sleeps and the monotonic
clock are modelled with exact rational arithmetic; the HTTP transport is
a function from attempt index to an outcome.
-/

/-- The exception taxonomy of `bgg_api/exceptions.py` together with the
concrete error sites of `BGGClient._request` and `Game._set_xml_data`.
`requestQueued` is `BGGRequestQueued`, `networkError` is
`BGGNetworkError`, and the remaining constructors are the distinct
`BGGAPIError` sites (empty body, XML parse failure, retries exhausted
naming the URL and attempt count, entity subtree missing naming the
entity id).  `intParseError` stands for an uncaught Python `ValueError`
or `TypeError` escaping an `int(...)` conversion. -/
inductive BGGErr where
  | requestQueued
  | emptyResponse
  | parseFailure
  | retriesExhausted (url : String) (attempts : Nat)
  | networkError (url : String)
  | gameNotFound (id : Int)
  | intParseError
deriving DecidableEq

/-- The Python exception class each `BGGErr` constructor is raised as. -/
inductive ErrClass where
  | apiError
  | netError
  | queued
  | pyError
deriving DecidableEq

def BGGErr.cls : BGGErr → ErrClass
  | .requestQueued => .queued
  | .emptyResponse => .apiError
  | .parseFailure => .apiError
  | .retriesExhausted _ _ => .apiError
  | .networkError _ => .netError
  | .gameNotFound _ => .apiError
  | .intParseError => .pyError

/-- The body of an HTTP response as seen by `etree.fromstring`:
empty (`not response.content`), unparsable (raises `XMLSyntaxError`),
or a well-formed XML document. -/
inductive RespBody where
  | empty
  | malformed
  | xml (tree : XmlNode)

/-- Outcome of one `session.get` call: an HTTP status with a body, or a
`requests.exceptions.RequestException` raised by the transport. -/
inductive HttpOutcome where
  | status (code : Nat) (body : RespBody)
  | netFailure

/-- A sleep performed inside the retry loop: `backoffSleep` is the
429 branch's `time.sleep(self._current_backoff)`, `queuedSleep` is the
202 branch's fixed `time.sleep(2.0)`. -/
inductive SleepEv where
  | backoffSleep (t : ℚ)
  | queuedSleep (t : ℚ)
deriving DecidableEq

/-- Configuration fields of `BGGClient.__init__` used by `_request`. -/
structure ClientCfg where
  max_retries : Nat
  initial_backoff : ℚ
  backoff_factor : ℚ
  backoff_decay : ℚ
  rate_limit_qps : ℚ

/-- The mutable controller state: `_current_backoff` and
`_last_request_time`. -/
structure ClientState where
  current_backoff : ℚ
  last_request_time : ℚ
deriving DecidableEq

/-- Result of the `for attempt in range(self.max_retries)` loop. -/
structure LoopOut where
  result : Except BGGErr XmlNode
  backoff : ℚ
  sleeps : List SleepEv
  attempts : Nat

/-- The retry loop of `_request`, lines 106-155 of `bgg_api/client.py`.
`resp i` is what the `i`-th `session.get` call produces, `remaining` is
the number of loop iterations left, `idx` the index of the next attempt
and `b` the current value of `self._current_backoff`.  Falling out of
the loop raises the final `BGGAPIError` naming the URL and
`self.max_retries`. -/
def runAttempts (cfg : ClientCfg) (url : String) (handle_accepted : Bool)
    (resp : Nat → HttpOutcome) : Nat → Nat → ℚ → LoopOut
  | 0, _, b => ⟨.error (.retriesExhausted url cfg.max_retries), b, [], 0⟩
  | remaining + 1, idx, b =>
    match resp idx with
    | .netFailure => ⟨.error (.networkError url), b, [], 1⟩
    | .status code body =>
      if code = 202 then
        if handle_accepted = false then
          ⟨.error .requestQueued, b, [], 1⟩
        else
          let rest := runAttempts cfg url handle_accepted resp remaining (idx + 1) b
          ⟨rest.result, rest.backoff, .queuedSleep 2 :: rest.sleeps, rest.attempts + 1⟩
      else if code = 429 then
        let rest := runAttempts cfg url handle_accepted resp remaining (idx + 1)
          (b * cfg.backoff_factor)
        ⟨rest.result, rest.backoff, .backoffSleep b :: rest.sleeps, rest.attempts + 1⟩
      else if 400 ≤ code then
        -- response.raise_for_status() raises requests.HTTPError, which is a
        -- RequestException, hence wrapped as BGGNetworkError
        ⟨.error (.networkError url), b, [], 1⟩
      else
        match body with
        | .empty => ⟨.error .emptyResponse, b, [], 1⟩
        | .malformed => ⟨.error .parseFailure, b, [], 1⟩
        | .xml tree =>
          ⟨.ok tree, max cfg.initial_backoff (b * cfg.backoff_decay), [], 1⟩

/-- Everything `_request` produces and mutates: the returned tree or the
raised exception, the new controller state, the throttle sleep (if any)
and the retry-loop sleeps, and how many `session.get` calls were made. -/
structure RequestOut where
  result : Except BGGErr XmlNode
  state : ClientState
  throttle_sleep : Option ℚ
  retry_sleeps : List SleepEv
  attempts : Nat

def apiUrl : String := "https://boardgamegeek.com/xmlapi2"

/-- Model of `BGGClient._request`.  Here `is_cached` is the transport-cache lookup of
lines 88-93; `now` is `time.monotonic()` at the throttle check, and a
sleep is modelled as advancing the clock by exactly the slept amount, so
`_last_request_time` after the throttle block is `now` plus the sleep. -/
def request (cfg : ClientCfg) (st : ClientState) (endpoint : String)
    (is_cached : Bool) (now : ℚ) (handle_accepted : Bool)
    (resp : Nat → HttpOutcome) : RequestOut :=
  let url := apiUrl ++ "/" ++ endpoint
  let throttled :=
    if is_cached = false ∧ 0 < cfg.rate_limit_qps then
      let min_interval := st.current_backoff / cfg.rate_limit_qps
      let elapsed := now - st.last_request_time
      let s := if elapsed < min_interval then some (min_interval - elapsed) else none
      (s, now + (s.getD 0))
    else
      (none, st.last_request_time)
  let lo := runAttempts cfg url handle_accepted resp cfg.max_retries 0 st.current_backoff
  ⟨lo.result, ⟨lo.backoff, throttled.2⟩, throttled.1, lo.sleeps, lo.attempts⟩

/-!  ## Lazy entities (`bgg_api/models.py`)

Each operation returns the mutated object (or the raised exception)
together with the number of controller requests it issued.  The network
is abstracted as an oracle giving the parsed response tree for each
request the code can make.
-/

/-- The fields of `Game` relevant to materialization: `self.id` and the
raw-data slot `self._xml_data`. -/
structure GameM where
  id : Int
  xml_data : Option XmlNode

/-- Model of `Game._set_xml_data`: a no-op when the slot is populated; otherwise
looks up `.//item[@id='{self.id}']` in the given tree, raising
`BGGAPIError` naming the id when absent. -/
def setXmlData (g : GameM) (tree : XmlNode) : Except BGGErr GameM :=
  if g.xml_data.isSome then
    .ok g
  else
    match findItemById tree g.id with
    | none => .error (.gameNotFound g.id)
    | some item => .ok { g with xml_data := some item }

/-- Model of `Game._set_xml_data_from_collection_item`: a no-op when the slot is
populated; otherwise adopts the item's `objectid` as `self.id` and
stores the item.  `int(...)` failure is an uncaught Python error. -/
def setXmlDataFromCollectionItem (g : GameM) (item : XmlNode) :
    Except BGGErr GameM :=
  if g.xml_data.isSome then
    .ok g
  else
    match (attrGet item "objectid").bind pyInt? with
    | none => .error .intParseError
    | some oid => .ok { id := oid, xml_data := some item }

/-- Model of `Game._set_xml_data_from_search_item`: like the collection variant
but the identity comes from the item's `id` attribute. -/
def setXmlDataFromSearchItem (g : GameM) (item : XmlNode) :
    Except BGGErr GameM :=
  if g.xml_data.isSome then
    .ok g
  else
    match (attrGet item "id").bind pyInt? with
    | none => .error .intParseError
    | some i => .ok { id := i, xml_data := some item }

/-- Model of `Game._fetch_data`: returns immediately when the slot is populated;
otherwise issues exactly one controller request (`_get_game_data`) and
populates the slot via `_set_xml_data`.  `oracle id` is the parsed tree
the controller returns for game `id`; the second component counts the
requests issued. -/
def fetchData (oracle : Int → XmlNode) (g : GameM) :
    Except BGGErr GameM × Nat :=
  if g.xml_data.isSome then
    (.ok g, 0)
  else
    (setXmlData g (oracle g.id), 1)

/-- A property access on `Game` (e.g. `Game.name`): calls `_fetch_data`
first, then reads from the populated subtree. -/
def gamePropertyAccess (oracle : Int → XmlNode) (g : GameM) :
    Except BGGErr GameM × Nat :=
  fetchData oracle g

/-- The fields of `User` relevant to materialization. -/
structure UserM where
  username : String
  xml_data : Option XmlNode

/-- Model of `User._fetch_data`: returns immediately when the slot is populated;
otherwise issues one controller request and stores the whole response
tree in the slot. -/
def userFetchData (oracle : String → XmlNode) (u : UserM) : UserM × Nat :=
  if u.xml_data.isSome then
    (u, 0)
  else
    ({ u with xml_data := some (oracle u.username) }, 1)

/-- The fields of `Collection` relevant to materialization: the owning
user's name and the optional list of seeded games. -/
structure CollectionM where
  username : String
  games : Option (List GameM)

/-- The body of the loop in `Collection._fetch_data`: for each direct
`item` child of the collection response, build a `Game` from its
`objectid` and seed it with `_set_xml_data_from_collection_item`. -/
def collectionGameOfItem (item : XmlNode) : Except BGGErr GameM :=
  match (attrGet item "objectid").bind pyInt? with
  | none => .error .intParseError
  | some oid => setXmlDataFromCollectionItem { id := oid, xml_data := none } item

/-- Model of `Collection._fetch_data`: returns immediately when `_games` is
populated; otherwise issues one controller request
(`_get_collection_data`) and seeds one game per `item` child. -/
def collectionFetchData (oracle : String → XmlNode) (c : CollectionM) :
    Except BGGErr CollectionM × Nat :=
  match c.games with
  | some _ => (.ok c, 0)
  | none =>
    let tree := oracle c.username
    match (childrenWithTag tree "item").mapM collectionGameOfItem with
    | .error e => (.error e, 1)
    | .ok gs => (.ok { c with games := some gs }, 1)

/-- Model of `Collection.__len__`: fetches if needed, then the list length. -/
def collectionLen (oracle : String → XmlNode) (c : CollectionM) :
    Except BGGErr (Nat × CollectionM) × Nat :=
  match collectionFetchData oracle c with
  | (.error e, n) => (.error e, n)
  | (.ok c2, n) => (.ok ((c2.games.getD []).length, c2), n)

/-- Model of `Collection.__iter__`: fetches if needed, then iterates the list. -/
def collectionIter (oracle : String → XmlNode) (c : CollectionM) :
    Except BGGErr (List GameM × CollectionM) × Nat :=
  match collectionFetchData oracle c with
  | (.error e, n) => (.error e, n)
  | (.ok c2, n) => (.ok (c2.games.getD [], c2), n)

/-!  ## The paginated ratings accumulator (`Ratings` in `bgg_api/models.py`) -/

/-- A parsed rating comment (`Rating` in `bgg_api/models.py`). -/
structure RatingM where
  username : String
  rating : ℚ
  comment : String

/-- Model of `int(element.get(key, default))`: the attribute parsed as an integer
when present, the integer default when absent; a parse failure is an
uncaught Python `ValueError`. -/
def attrInt (n : XmlNode) (key : String) (dflt : Int) : Except BGGErr Int :=
  match attrGet n key with
  | none => .ok dflt
  | some s =>
    match pyInt? s with
    | none => .error .intParseError
    | some v => .ok v

/-- The per-comment loop of `Ratings.fetch_more`: a comment with a
missing or empty `rating` attribute is skipped, a non-numeric one is
skipped with a warning, and the rest become `Rating` records in page
order. -/
def ratingsOfComments (comments : XmlNode) : List RatingM :=
  (childrenWithTag comments "comment").filterMap (fun c =>
    match attrGet c "rating" with
    | none => none
    | some rv =>
      if rv = "" then none
      else
        match parseFloat? rv with
        | none => none
        | some q => some ⟨attrGetD c "username" "N/A", q, attrGetD c "value" ""⟩)

/-- The fields of `Ratings`: the owning game (also seeded by
`fetch_more`), the accumulated ratings, pages fetched, and the totals
discovered from the first page response (absent until then). -/
structure RatingsM where
  game : GameM
  ratings : List RatingM
  pages_fetched : Nat
  total_pages : Option Int
  total_ratings : Option Int

/-- Model of `Ratings.__init__`. -/
def ratingsInit (g : GameM) : RatingsM :=
  ⟨g, [], 0, none, none⟩

/-- Model of `Ratings.__len__`: the server-reported total when known, otherwise
the number of ratings accumulated so far.  No fetch is performed. -/
def ratingsLen (r : RatingsM) : Int :=
  match r.total_ratings with
  | some t => t
  | none => (r.ratings.length : Int)

/-- Model of `Ratings.__iter__`: iterates the accumulated list only; no fetch is
performed. -/
def ratingsIter (r : RatingsM) : List RatingM :=
  r.ratings

/-- Model of `Ratings.all_fetched`: false while `_total_pages` is unknown,
otherwise `_pages_fetched >= _total_pages`. -/
def allFetched (r : RatingsM) : Bool :=
  match r.total_pages with
  | none => false
  | some tp => tp ≤ (r.pages_fetched : Int)

/-- One iteration of the page loop in `Ratings.fetch_more` (lines
558-597 of `bgg_api/models.py`): issue the page request, opportunistically
seed the parent game, locate the comments container (setting both totals
to 0 and stopping when absent), compute the totals on the first page
ever fetched (`ceil(totalitems / pagesize)`, 0 when `pagesize` is 0),
and append the page's parsed ratings. -/
def fetchPage (oracle : Nat → XmlNode) (r : RatingsM) (page_num : Nat) :
    Except BGGErr RatingsM :=
  let tree := oracle page_num
  match setXmlData r.game tree with
  | .error e => .error e
  | .ok g =>
    match findCommentsOfItem tree r.game.id with
    | none =>
      .ok { r with game := g, total_pages := some 0, total_ratings := some 0 }
    | some comments =>
      match r.total_pages with
      | some tp =>
        .ok { game := g
              ratings := r.ratings ++ ratingsOfComments comments
              pages_fetched := page_num
              total_pages := some tp
              total_ratings := r.total_ratings }
      | none =>
        match attrInt comments "totalitems" 0 with
        | .error e => .error e
        | .ok tr =>
          match attrInt comments "pagesize" 100 with
          | .error e => .error e
          | .ok ps =>
            .ok { game := g
                  ratings := r.ratings ++ ratingsOfComments comments
                  pages_fetched := page_num
                  total_pages := some (if 0 < ps then ceilDiv tr ps else 0)
                  total_ratings := some tr }

/-- The `for page_num in range(start_page, end_page)` loop of
`Ratings.fetch_more`, with the `all_fetched` break at the top of each
iteration.  The second component counts the page requests issued. -/
def fetchPages (oracle : Nat → XmlNode) :
    List Nat → RatingsM → Except BGGErr RatingsM × Nat
  | [], r => (.ok r, 0)
  | p :: ps, r =>
    if allFetched r then
      (.ok r, 0)
    else
      match fetchPage oracle r p with
      | .error e => (.error e, 1)
      | .ok r2 =>
        let rest := fetchPages oracle ps r2
        (rest.1, rest.2 + 1)

/-- Model of `Ratings.fetch_more(num_pages)`: a no-op when everything is already
fetched; otherwise fetches pages `pages_fetched+1` up to
`pages_fetched+num_pages`, clamped to `total_pages` once known. -/
def fetchMore (oracle : Nat → XmlNode) (r : RatingsM) (num_pages : Nat) :
    Except BGGErr RatingsM × Nat :=
  if allFetched r then
    (.ok r, 0)
  else
    let start_page := r.pages_fetched + 1
    let end_page : Int :=
      match r.total_pages with
      | some tp => min ((start_page : Int) + num_pages) (tp + 1)
      | none => (start_page : Int) + num_pages
    fetchPages oracle (List.range' start_page (end_page - start_page).toNat) r

/-!  ## Shared concrete scenario data

A 250-rating game served at 100 ratings per page (pages of 100, 100 and
50 comments), and a variant of the same series whose second page lacks
the comments container. -/

def sampleComment : XmlNode :=
  .mk "comment" [("username", "u"), ("rating", "7"), ("value", "nice")] []

/-- Page `n` of the 250-item, 100-per-page ratings series for game 42. -/
def series250Page (n : Nat) : XmlNode :=
  .mk "items" []
    [.mk "item" [("id", "42")]
      [.mk "comments"
        [("page", toString n), ("totalitems", "250"), ("pagesize", "100")]
        (List.replicate (if n ≤ 2 then 100 else if n = 3 then 50 else 0)
          sampleComment)]]

/-- The same series, but the second page's item has no comments child. -/
def truncated250Page (n : Nat) : XmlNode :=
  if n = 1 then series250Page 1 else .mk "items" [] [.mk "item" [("id", "42")] []]

def game42 : GameM := ⟨42, none⟩

def ratings42 : RatingsM := ratingsInit game42

/-- One `fetch_more(1)` call, keeping the old state when it raises. -/
def fmStep (o : Nat → XmlNode) (r : RatingsM) : RatingsM :=
  ((fetchMore o r 1).1).toOption.getD r

def fm1 : RatingsM := fmStep series250Page ratings42
def fm2 : RatingsM := fmStep series250Page fm1
def fm3 : RatingsM := fmStep series250Page fm2

def tr1 : RatingsM := fmStep truncated250Page ratings42
def tr2 : RatingsM := fmStep truncated250Page tr1

/-- A transport that always produces the same outcome. -/
def respOf (o : HttpOutcome) : Nat → HttpOutcome :=
  fun _ => o

/-- An empty parsed document, for concrete controller runs. -/
def xml0 : XmlNode :=
  .mk "items" [] []

/-- A transport producing three 429 responses and then a 200 with a
well-formed body. -/
def resp429x3 : Nat → HttpOutcome :=
  fun i => if i < 3 then .status 429 .empty else .status 200 (.xml xml0)

/-- A `thing` response carrying game 42, for concrete runs. -/
def doc42 : XmlNode :=
  .mk "items" [] [.mk "item" [("id", "42")] []]

/-- A collection item with `objectid` 7, and a collection response
holding just that item. -/
def collItem7 : XmlNode :=
  .mk "item" [("objectid", "7")] []

def collDoc : XmlNode :=
  .mk "items" [] [collItem7]

/-- A one-page ratings response for game 5 reporting 3 total items at
page size 2, with no comment entries on the page. -/
def miniComments : XmlNode :=
  .mk "comments" [("totalitems", "3"), ("pagesize", "2")] []

def miniItem : XmlNode :=
  .mk "item" [("id", "5")] [miniComments]

def miniPage : XmlNode :=
  .mk "items" [] [miniItem]

/-!  ## Helper lemmas -/

/-- The value `ceilDiv a b` is the ceiling of the exact rational quotient when the
divisor is positive, i.e. `math.ceil(a / b)`. -/
theorem ceilDiv_eq_ceil (a b : Int) (h : 0 < b) :
    ceilDiv a b = ⌈(a : ℚ) / (b : ℚ)⌉ := by
  obtain ⟨p, rfl⟩ : ∃ p : ℕ, b = (p : ℤ) := ⟨b.toNat, (Int.toNat_of_nonneg h.le).symm⟩
  have h2 : ((a : ℚ)) / ((p : ℤ) : ℚ) = -(((-a : ℤ) : ℚ) / ((p : ℕ) : ℚ)) := by
    push_cast
    ring
  rw [ceilDiv, h2, Int.ceil_neg, Rat.floor_intCast_div_natCast,
    Int.fdiv_eq_ediv _ (by omega)]

/-!  ## Claims about the controller's throttle (C4, C5) -/

/-- C4: for every request whose signature is already in the cache, the
controller invokes no throttle sleep and leaves `_last_request_time`
unchanged; the timestamp is only ever written in the non-cached branch,
so a cache hit never updates it. -/
theorem c4_cached_requests_skip_throttle (cfg : ClientCfg) (st : ClientState)
    (endpoint : String) (now : ℚ) (ha : Bool) (resp : Nat → HttpOutcome) :
    (request cfg st endpoint true now ha resp).throttle_sleep = none ∧
    (request cfg st endpoint true now ha resp).state.last_request_time =
      st.last_request_time := by
  constructor <;> simp [request]

/-- C5: for a non-cached request with a positive queries-per-second
limit, when less than `min_interval = current_backoff / qps` seconds
have elapsed since `_last_request_time`, the controller sleeps exactly
the remainder before sending. -/
theorem c5_throttle_sleeps_remainder (cfg : ClientCfg) (st : ClientState)
    (endpoint : String) (now : ℚ) (ha : Bool) (resp : Nat → HttpOutcome)
    (hq : 0 < cfg.rate_limit_qps)
    (hlt : now - st.last_request_time < st.current_backoff / cfg.rate_limit_qps) :
    (request cfg st endpoint false now ha resp).throttle_sleep =
      some (st.current_backoff / cfg.rate_limit_qps -
        (now - st.last_request_time)) := by
  simp [request, hq, hlt]

/-- C5 at `qps = 5`, `current_backoff = 2.0`, two live requests `0.08`
seconds apart: the sleep before the second is `2.0/5 - 0.08 = 0.32`
seconds (`8/25`). -/
theorem c5_witness :
    (request ⟨10, 2, 2, 95/100, 5⟩ ⟨2, 0⟩ "thing" false (8/100) true
      (fun _ => .netFailure)).throttle_sleep = some (8/25) := by
  rw [c5_throttle_sleeps_remainder ⟨10, 2, 2, 95/100, 5⟩ ⟨2, 0⟩ "thing" (8/100)
    true (fun _ => .netFailure) (by norm_num) (by norm_num)]
  norm_num

/-!  ## Claims about the retry loop (C6, C1) -/

/-- C6: on an HTTP 202 response, when `handle_accepted` is false the
loop raises the distinct request-queued condition immediately with no
sleep; when it is true the loop sleeps the fixed short delay of 2.0
seconds (not the exponential backoff) and retries with
`_current_backoff` unchanged. -/
theorem c6_queued_response_handling (cfg : ClientCfg) (url : String)
    (resp : Nat → HttpOutcome) (n idx : Nat) (b : ℚ) (body : RespBody)
    (h202 : resp idx = .status 202 body) :
    runAttempts cfg url false resp (n + 1) idx b =
      ⟨.error .requestQueued, b, [], 1⟩ ∧
    runAttempts cfg url true resp (n + 1) idx b =
      ⟨(runAttempts cfg url true resp n (idx + 1) b).result,
       (runAttempts cfg url true resp n (idx + 1) b).backoff,
       .queuedSleep 2 :: (runAttempts cfg url true resp n (idx + 1) b).sleeps,
       (runAttempts cfg url true resp n (idx + 1) b).attempts + 1⟩ := by
  constructor <;> simp [runAttempts, h202]

/-- C6 at a concrete input: one constant-202 transport, `n = 0`
remaining retries after this one, backoff 2. -/
theorem c6_witness :
    runAttempts ⟨10, 2, 2, 95/100, 5⟩ "u" false (respOf (.status 202 .empty)) 1 0 2 =
      ⟨.error .requestQueued, 2, [], 1⟩ ∧
    runAttempts ⟨10, 2, 2, 95/100, 5⟩ "u" true (respOf (.status 202 .empty)) 1 0 2 =
      ⟨(runAttempts ⟨10, 2, 2, 95/100, 5⟩ "u" true (respOf (.status 202 .empty)) 0 1 2).result,
       (runAttempts ⟨10, 2, 2, 95/100, 5⟩ "u" true (respOf (.status 202 .empty)) 0 1 2).backoff,
       .queuedSleep 2 ::
         (runAttempts ⟨10, 2, 2, 95/100, 5⟩ "u" true (respOf (.status 202 .empty)) 0 1 2).sleeps,
       (runAttempts ⟨10, 2, 2, 95/100, 5⟩ "u" true (respOf (.status 202 .empty)) 0 1 2).attempts + 1⟩ :=
  c6_queued_response_handling ⟨10, 2, 2, 95/100, 5⟩ "u" (respOf (.status 202 .empty)) 0 0 2 .empty rfl

/-- C1: each 429 response makes the loop sleep the current backoff and
multiply it by `backoff_factor` before retrying; a successful parse sets
the backoff to `max(initial_backoff, backoff * backoff_decay)`, which
never falls below `initial_backoff`; and three 429s followed by a 200
make exactly 4 attempts, sleep the three ramped backoffs, and leave the
backoff at three multiplicative increases followed by one decay. -/
theorem c1_backoff_ramp_and_decay (cfg : ClientCfg) (st : ClientState)
    (endpoint : String) (ic : Bool) (now : ℚ) (ha : Bool) (tree : XmlNode) :
    (∀ (url : String) (resp : Nat → HttpOutcome) (n idx : Nat) (b : ℚ)
        (body : RespBody),
      resp idx = .status 429 body →
      runAttempts cfg url ha resp (n + 1) idx b =
        ⟨(runAttempts cfg url ha resp n (idx + 1) (b * cfg.backoff_factor)).result,
         (runAttempts cfg url ha resp n (idx + 1) (b * cfg.backoff_factor)).backoff,
         .backoffSleep b ::
           (runAttempts cfg url ha resp n (idx + 1) (b * cfg.backoff_factor)).sleeps,
         (runAttempts cfg url ha resp n (idx + 1) (b * cfg.backoff_factor)).attempts + 1⟩) ∧
    (∀ (url : String) (resp : Nat → HttpOutcome) (n idx : Nat) (b : ℚ),
      resp idx = .status 200 (.xml tree) →
      runAttempts cfg url ha resp (n + 1) idx b =
        ⟨.ok tree, max cfg.initial_backoff (b * cfg.backoff_decay), [], 1⟩ ∧
      cfg.initial_backoff ≤ max cfg.initial_backoff (b * cfg.backoff_decay)) ∧
    (∀ (resp : Nat → HttpOutcome),
      4 ≤ cfg.max_retries →
      (∀ i, i < 3 → resp i = .status 429 .empty) →
      resp 3 = .status 200 (.xml tree) →
      (request cfg st endpoint ic now ha resp).attempts = 4 ∧
      (request cfg st endpoint ic now ha resp).retry_sleeps =
        [.backoffSleep st.current_backoff,
         .backoffSleep (st.current_backoff * cfg.backoff_factor),
         .backoffSleep (st.current_backoff * cfg.backoff_factor * cfg.backoff_factor)] ∧
      (request cfg st endpoint ic now ha resp).result = .ok tree ∧
      (request cfg st endpoint ic now ha resp).state.current_backoff =
        max cfg.initial_backoff
          (st.current_backoff * cfg.backoff_factor * cfg.backoff_factor *
            cfg.backoff_factor * cfg.backoff_decay) ∧
      cfg.initial_backoff ≤ (request cfg st endpoint ic now ha resp).state.current_backoff) := by
  refine ⟨?_, ?_, ?_⟩
  · intro url resp n idx b body h429
    simp [runAttempts, h429]
  · intro url resp n idx b h200
    constructor
    · simp [runAttempts, h200]
    · exact le_max_left _ _
  · intro resp h4 h429s h200
    obtain ⟨k, hk⟩ : ∃ k, cfg.max_retries = k + 4 := ⟨cfg.max_retries - 4, by omega⟩
    have e0 := h429s 0 (by norm_num)
    have e1 := h429s 1 (by norm_num)
    have e2 := h429s 2 (by norm_num)
    simp only [request, hk]
    simp [runAttempts, e0, e1, e2, h200, le_max_left]

/-- C1 at a concrete input: three 429s then a 200, `max_retries = 10`,
`initial_backoff = current_backoff = 2`, `backoff_factor = 2`,
`backoff_decay = 0.95`. -/
theorem c1_witness :
    (request ⟨10, 2, 2, 95/100, 5⟩ ⟨2, 0⟩ "thing" false 0 true resp429x3).attempts = 4 ∧
    (request ⟨10, 2, 2, 95/100, 5⟩ ⟨2, 0⟩ "thing" false 0 true resp429x3).retry_sleeps =
      [.backoffSleep 2, .backoffSleep (2 * 2), .backoffSleep (2 * 2 * 2)] ∧
    (request ⟨10, 2, 2, 95/100, 5⟩ ⟨2, 0⟩ "thing" false 0 true
        resp429x3).state.current_backoff =
      max 2 (2 * 2 * 2 * 2 * (95/100)) := by
  have h := (c1_backoff_ramp_and_decay ⟨10, 2, 2, 95/100, 5⟩ ⟨2, 0⟩ "thing" false 0
      true xml0).2.2 resp429x3 (by norm_num)
    (by intro i hi
        simp [resp429x3, hi])
    (by norm_num [resp429x3])
  exact ⟨h.1, h.2.1, h.2.2.2.1⟩

/-!  ## Error classification (C8) -/

/-- When every attempt is rate limited, the loop falls off the end and
the final error names the URL and the configured attempt count. -/
theorem runAttempts_all429 (cfg : ClientCfg) (url : String) (ha : Bool)
    (resp : Nat → HttpOutcome) (h : ∀ i, ∃ body, resp i = .status 429 body)
    (n : Nat) :
    ∀ (idx : Nat) (b : ℚ),
      (runAttempts cfg url ha resp n idx b).result =
        .error (.retriesExhausted url cfg.max_retries) := by
  induction n with
  | zero =>
    intro idx b
    rfl
  | succ m ih =>
    intro idx b
    obtain ⟨body, hb⟩ := h idx
    simp [runAttempts, hb, ih]

/-- C8: the controller's failure classification.  An empty body raises
the empty-response `BGGAPIError`; an unparsable body raises the
parse-failure `BGGAPIError` in the same (single) attempt, with no
further retries; a successful response missing the entity's subtree
raises a `BGGAPIError` naming the entity's id; a transport failure
raises `BGGNetworkError`, a class distinct from the API errors; and
exhausting all `max_retries` attempts raises a `BGGAPIError` naming the
endpoint URL and the attempt count. -/
theorem c8_error_classification (cfg : ClientCfg) (st : ClientState)
    (endpoint url : String) (ic : Bool) (now : ℚ) (ha : Bool) :
    (∀ (resp : Nat → HttpOutcome) (n idx : Nat) (b : ℚ) (code : Nat),
      resp idx = .status code .empty →
      code ≠ 202 → code ≠ 429 → code < 400 →
      runAttempts cfg url ha resp (n + 1) idx b =
        ⟨.error .emptyResponse, b, [], 1⟩ ∧
      BGGErr.emptyResponse.cls = .apiError) ∧
    (∀ (resp : Nat → HttpOutcome) (n idx : Nat) (b : ℚ) (code : Nat),
      resp idx = .status code .malformed →
      code ≠ 202 → code ≠ 429 → code < 400 →
      runAttempts cfg url ha resp (n + 1) idx b =
        ⟨.error .parseFailure, b, [], 1⟩ ∧
      BGGErr.parseFailure.cls = .apiError) ∧
    (∀ (g : GameM) (tree : XmlNode),
      g.xml_data = none →
      findItemById tree g.id = none →
      setXmlData g tree = .error (.gameNotFound g.id) ∧
      (BGGErr.gameNotFound g.id).cls = .apiError) ∧
    (∀ (resp : Nat → HttpOutcome) (n idx : Nat) (b : ℚ),
      resp idx = .netFailure →
      runAttempts cfg url ha resp (n + 1) idx b =
        ⟨.error (.networkError url), b, [], 1⟩ ∧
      (BGGErr.networkError url).cls = .netError ∧
      ErrClass.netError ≠ ErrClass.apiError) ∧
    (∀ (resp : Nat → HttpOutcome),
      (∀ i, ∃ body, resp i = .status 429 body) →
      (request cfg st endpoint ic now ha resp).result =
        .error (.retriesExhausted (apiUrl ++ "/" ++ endpoint) cfg.max_retries) ∧
      (BGGErr.retriesExhausted (apiUrl ++ "/" ++ endpoint) cfg.max_retries).cls =
        .apiError) := by
  refine ⟨?_, ?_, ?_, ?_, ?_⟩
  · intro resp n idx b code hr h2 h4 hlt
    have hge : ¬ (400 ≤ code) := by omega
    exact ⟨by simp [runAttempts, hr, h2, h4, hge], rfl⟩
  · intro resp n idx b code hr h2 h4 hlt
    have hge : ¬ (400 ≤ code) := by omega
    exact ⟨by simp [runAttempts, hr, h2, h4, hge], rfl⟩
  · intro g tree hnone hfind
    refine ⟨?_, rfl⟩
    simp [setXmlData, hnone, hfind]
  · intro resp n idx b hr
    exact ⟨by simp [runAttempts, hr], rfl, by simp⟩
  · intro resp hall
    refine ⟨?_, rfl⟩
    simp only [request]
    exact runAttempts_all429 cfg (apiUrl ++ "/" ++ endpoint) ha resp hall
      cfg.max_retries 0 st.current_backoff

/-- C8 at concrete inputs: a 200 with an empty body, a 200 with an
unparsable body, a document without the requested item, a transport
failure, and an all-429 run. -/
theorem c8_witness :
    runAttempts ⟨3, 2, 2, 95/100, 5⟩ "u" true (respOf (.status 200 .empty)) 1 0 2 =
      ⟨.error .emptyResponse, 2, [], 1⟩ ∧
    runAttempts ⟨3, 2, 2, 95/100, 5⟩ "u" true (respOf (.status 200 .malformed)) 1 0 2 =
      ⟨.error .parseFailure, 2, [], 1⟩ ∧
    setXmlData ⟨42, none⟩ xml0 = .error (.gameNotFound 42) ∧
    runAttempts ⟨3, 2, 2, 95/100, 5⟩ "u" true (respOf .netFailure) 1 0 2 =
      ⟨.error (.networkError "u"), 2, [], 1⟩ ∧
    (request ⟨3, 2, 2, 95/100, 5⟩ ⟨2, 0⟩ "thing" false 0 true
        (respOf (.status 429 .empty))).result =
      .error (.retriesExhausted (apiUrl ++ "/thing") 3) := by
  have h := c8_error_classification ⟨3, 2, 2, 95/100, 5⟩ ⟨2, 0⟩ "thing" "u" false 0 true
  refine ⟨(h.1 _ 0 0 2 200 rfl (by norm_num) (by norm_num) (by norm_num)).1,
    (h.2.1 _ 0 0 2 200 rfl (by norm_num) (by norm_num) (by norm_num)).1,
    (h.2.2.1 ⟨42, none⟩ xml0 rfl rfl).1,
    (h.2.2.2.1 _ 0 0 2 rfl).1,
    (h.2.2.2.2 _ (fun i => ⟨.empty, rfl⟩)).1⟩

/-!  ## The lazy materialization protocol (C2, C3) -/

/-- C2: for every lazy entity with an empty raw-data slot, the first
property access (for `Collection`, the first iteration or `len`) issues
exactly one controller request and populates the slot; with a populated
slot every access, iteration, or fetch call issues zero requests and
returns the object unchanged, so a populated slot is never replaced or
re-fetched. -/
theorem c2_lazy_fetch_once :
    (∀ (oracle : Int → XmlNode) (g : GameM),
      g.xml_data = none →
      (fetchData oracle g).2 = 1 ∧
      (∀ g2, (fetchData oracle g).1 = .ok g2 → g2.xml_data.isSome = true)) ∧
    (∀ (oracle : Int → XmlNode) (g : GameM) (d : XmlNode),
      g.xml_data = some d → fetchData oracle g = (.ok g, 0)) ∧
    (∀ (o o2 : Int → XmlNode) (g g2 : GameM),
      (fetchData o g).1 = .ok g2 → fetchData o2 g2 = (.ok g2, 0)) ∧
    (∀ (oracle : String → XmlNode) (u : UserM),
      u.xml_data = none →
      userFetchData oracle u = (⟨u.username, some (oracle u.username)⟩, 1)) ∧
    (∀ (oracle : String → XmlNode) (u : UserM) (d : XmlNode),
      u.xml_data = some d → userFetchData oracle u = (u, 0)) ∧
    (∀ (o o2 : String → XmlNode) (u : UserM),
      userFetchData o2 (userFetchData o u).1 = ((userFetchData o u).1, 0)) ∧
    (∀ (oracle : String → XmlNode) (c : CollectionM),
      c.games = none →
      (collectionFetchData oracle c).2 = 1 ∧
      (collectionLen oracle c).2 = 1 ∧
      (collectionIter oracle c).2 = 1 ∧
      (∀ c2, (collectionFetchData oracle c).1 = .ok c2 → c2.games.isSome = true)) ∧
    (∀ (oracle : String → XmlNode) (c : CollectionM) (gs : List GameM),
      c.games = some gs →
      collectionFetchData oracle c = (.ok c, 0) ∧
      collectionLen oracle c = (.ok (gs.length, c), 0) ∧
      collectionIter oracle c = (.ok (gs, c), 0)) ∧
    (∀ (o o2 : String → XmlNode) (c c2 : CollectionM),
      (collectionFetchData o c).1 = .ok c2 →
      collectionFetchData o2 c2 = (.ok c2, 0)) := by
  refine ⟨?_, ?_, ?_, ?_, ?_, ?_, ?_, ?_, ?_⟩
  · intro oracle g hg
    refine ⟨by simp [fetchData, hg], ?_⟩
    intro g2 h2
    simp only [fetchData, hg, Option.isSome_none, Bool.false_eq_true, if_false] at h2
    simp only [setXmlData, hg, Option.isSome_none, Bool.false_eq_true, if_false] at h2
    cases hf : findItemById (oracle g.id) g.id with
    | none => rw [hf] at h2; cases h2
    | some item =>
      rw [hf] at h2
      cases h2
      rfl
  · intro oracle g d hg
    simp [fetchData, hg]
  · intro o o2 g g2 h
    cases hg : g.xml_data with
    | some d =>
      simp only [fetchData, hg, Option.isSome_some, if_true] at h
      cases h
      simp [fetchData, hg]
    | none =>
      simp only [fetchData, hg, Option.isSome_none, Bool.false_eq_true, if_false] at h
      simp only [setXmlData, hg, Option.isSome_none, Bool.false_eq_true, if_false] at h
      cases hf : findItemById (o g.id) g.id with
      | none => rw [hf] at h; cases h
      | some item =>
        rw [hf] at h
        cases h
        simp [fetchData]
  · intro oracle u hu
    simp [userFetchData, hu]
  · intro oracle u d hu
    simp [userFetchData, hu]
  · intro o o2 u
    cases hu : u.xml_data <;> simp [userFetchData, hu]
  · intro oracle c hc
    refine ⟨?_, ?_, ?_, ?_⟩
    · simp only [collectionFetchData, hc]
      cases (childrenWithTag (oracle c.username) "item").mapM collectionGameOfItem <;> rfl
    · simp only [collectionLen, collectionFetchData, hc]
      cases (childrenWithTag (oracle c.username) "item").mapM collectionGameOfItem <;> rfl
    · simp only [collectionIter, collectionFetchData, hc]
      cases (childrenWithTag (oracle c.username) "item").mapM collectionGameOfItem <;> rfl
    · intro c2 h2
      simp only [collectionFetchData, hc] at h2
      cases hm : (childrenWithTag (oracle c.username) "item").mapM collectionGameOfItem with
      | error e => rw [hm] at h2; cases h2
      | ok gs =>
        rw [hm] at h2
        cases h2
        rfl
  · intro oracle c gs hc
    refine ⟨by simp [collectionFetchData, hc], ?_, ?_⟩
    · simp [collectionLen, collectionFetchData, hc]
    · simp [collectionIter, collectionFetchData, hc]
  · intro o o2 c c2 h
    cases hc : c.games with
    | some gs =>
      simp only [collectionFetchData, hc] at h
      cases h
      simp [collectionFetchData, hc]
    | none =>
      simp only [collectionFetchData, hc] at h
      cases hm : (childrenWithTag (o c.username) "item").mapM collectionGameOfItem with
      | error e => rw [hm] at h; cases h
      | ok gs =>
        rw [hm] at h
        cases h
        simp [collectionFetchData]

/-- C2 at concrete inputs: an unfetched and a fetched game, an
unfetched user, and an unfetched and a fetched collection. -/
theorem c2_witness :
    (fetchData (fun _ => doc42) ⟨42, none⟩).2 = 1 ∧
    fetchData (fun _ => doc42) ⟨42, some doc42⟩ = (.ok ⟨42, some doc42⟩, 0) ∧
    userFetchData (fun _ => doc42) ⟨"alice", none⟩ = (⟨"alice", some doc42⟩, 1) ∧
    (collectionFetchData (fun _ => collDoc) ⟨"alice", none⟩).2 = 1 ∧
    collectionFetchData (fun _ => collDoc) ⟨"alice", some []⟩ =
      (.ok ⟨"alice", some []⟩, 0) :=
  ⟨(c2_lazy_fetch_once.1 (fun _ => doc42) ⟨42, none⟩ rfl).1,
   c2_lazy_fetch_once.2.1 (fun _ => doc42) ⟨42, some doc42⟩ doc42 rfl,
   c2_lazy_fetch_once.2.2.2.1 (fun _ => doc42) ⟨"alice", none⟩ rfl,
   (c2_lazy_fetch_once.2.2.2.2.2.2.1 (fun _ => collDoc) ⟨"alice", none⟩ rfl).1,
   (c2_lazy_fetch_once.2.2.2.2.2.2.2.1 (fun _ => collDoc) ⟨"alice", some []⟩ [] rfl).1⟩

/-- C3: seeding an entity whose slot is empty from a collection,
search, or batch subtree populates the slot, adopts the identity found
in the subtree, and marks the entity fetched (later accesses issue zero
requests); seeding a populated entity is a silent no-op that never
overwrites and never raises. -/
theorem c3_seeding (oracle : Int → XmlNode) :
    (∀ (g : GameM) (item : XmlNode) (oid : Int),
      g.xml_data = none →
      (attrGet item "objectid").bind pyInt? = some oid →
      setXmlDataFromCollectionItem g item = .ok ⟨oid, some item⟩ ∧
      fetchData oracle ⟨oid, some item⟩ = (.ok ⟨oid, some item⟩, 0)) ∧
    (∀ (g : GameM) (item : XmlNode) (i : Int),
      g.xml_data = none →
      (attrGet item "id").bind pyInt? = some i →
      setXmlDataFromSearchItem g item = .ok ⟨i, some item⟩ ∧
      fetchData oracle ⟨i, some item⟩ = (.ok ⟨i, some item⟩, 0)) ∧
    (∀ (g : GameM) (tree item : XmlNode),
      g.xml_data = none →
      findItemById tree g.id = some item →
      setXmlData g tree = .ok { g with xml_data := some item } ∧
      fetchData oracle { g with xml_data := some item } =
        (.ok { g with xml_data := some item }, 0)) ∧
    (∀ (g : GameM) (d tree : XmlNode),
      g.xml_data = some d →
      setXmlData g tree = .ok g ∧
      setXmlDataFromCollectionItem g tree = .ok g ∧
      setXmlDataFromSearchItem g tree = .ok g) := by
  refine ⟨?_, ?_, ?_, ?_⟩
  · intro g item oid hg hoid
    exact ⟨by simp [setXmlDataFromCollectionItem, hg, hoid], by simp [fetchData]⟩
  · intro g item i hg hi
    exact ⟨by simp [setXmlDataFromSearchItem, hg, hi], by simp [fetchData]⟩
  · intro g tree item hg hfind
    exact ⟨by simp [setXmlData, hg, hfind], by simp [fetchData]⟩
  · intro g d tree hg
    exact ⟨by simp [setXmlData, hg], by simp [setXmlDataFromCollectionItem, hg],
      by simp [setXmlDataFromSearchItem, hg]⟩

/-- C3 at concrete inputs: seeding a fresh game from a collection item
adopts `objectid` 7 and needs no later fetch; re-seeding a populated
game from any subtree is a silent no-op. -/
theorem c3_witness :
    setXmlDataFromCollectionItem ⟨0, none⟩ collItem7 = .ok ⟨7, some collItem7⟩ ∧
    fetchData (fun _ => doc42) ⟨7, some collItem7⟩ = (.ok ⟨7, some collItem7⟩, 0) ∧
    setXmlData ⟨7, some collItem7⟩ doc42 = .ok ⟨7, some collItem7⟩ ∧
    setXmlDataFromCollectionItem ⟨7, some collItem7⟩ doc42 = .ok ⟨7, some collItem7⟩ ∧
    setXmlDataFromSearchItem ⟨7, some collItem7⟩ doc42 = .ok ⟨7, some collItem7⟩ := by
  have h1 := (c3_seeding (fun _ => doc42)).1 ⟨0, none⟩ collItem7 7 rfl rfl
  have h4 := (c3_seeding (fun _ => doc42)).2.2.2 ⟨7, some collItem7⟩ collItem7 doc42 rfl
  exact ⟨h1.1, h1.2, h4.1, h4.2.1, h4.2.2⟩

/-!  ## The paginated ratings accumulator (C7, C9, C10) -/

set_option maxRecDepth 400000 in
/-- C7: on the first page the accumulator computes
`total_pages = ceil(totalitems / pagesize)` (0 when the page size is
not positive); `fetch_more` is a no-op once everything is fetched;
`all_fetched` holds iff the total is known and `pages_fetched` has
reached it; and against the 250-item, 100-per-page series, repeated
`fetch_more(1)` yields pages of 100, 100 and 50 ratings with
`all_fetched` true only after the third call. -/
theorem c7_ratings_pagination :
    (∀ r : RatingsM,
      (allFetched r = true ↔
        ∃ tp : Int, r.total_pages = some tp ∧ tp ≤ (r.pages_fetched : Int)) ∧
      (r.total_pages = none → allFetched r = false)) ∧
    (∀ (o : Nat → XmlNode) (r : RatingsM) (n : Nat),
      allFetched r = true → fetchMore o r n = (.ok r, 0)) ∧
    (∀ (o : Nat → XmlNode) (r : RatingsM) (p : Nat) (g : GameM)
        (comments : XmlNode) (tr ps : Int),
      r.total_pages = none →
      setXmlData r.game (o p) = .ok g →
      findCommentsOfItem (o p) r.game.id = some comments →
      attrInt comments "totalitems" 0 = .ok tr →
      attrInt comments "pagesize" 100 = .ok ps →
      (0 < ps →
        fetchPage o r p =
          .ok ⟨g, r.ratings ++ ratingsOfComments comments, p,
            some ⌈(tr : ℚ) / (ps : ℚ)⌉, some tr⟩) ∧
      (ps ≤ 0 →
        fetchPage o r p =
          .ok ⟨g, r.ratings ++ ratingsOfComments comments, p, some 0, some tr⟩)) ∧
    (fetchMore series250Page ratings42 1 = (.ok fm1, 1) ∧
      fm1.ratings.length = 100 ∧ fm1.total_pages = some 3 ∧
      fm1.total_ratings = some 250 ∧ allFetched fm1 = false ∧
      fetchMore series250Page fm1 1 = (.ok fm2, 1) ∧
      fm2.ratings.length = 200 ∧ allFetched fm2 = false ∧
      fetchMore series250Page fm2 1 = (.ok fm3, 1) ∧
      fm3.ratings.length = 250 ∧ fm3.pages_fetched = 3 ∧
      allFetched fm3 = true) := by
  refine ⟨?_, ?_, ?_, ?_⟩
  · intro r
    cases htp : r.total_pages with
    | none => simp [allFetched, htp]
    | some tp => simp [allFetched, htp]
  · intro o r n h
    simp [fetchMore, h]
  · intro o r p g comments tr ps htp hsx hfc htr hps
    constructor
    · intro hpos
      simp [fetchPage, hsx, hfc, htp, htr, hps, hpos,
        ceilDiv_eq_ceil tr ps hpos]
    · intro hnonpos
      have hneg : ¬ (0 < ps) := by omega
      simp [fetchPage, hsx, hfc, htp, htr, hps, hneg]
  · refine ⟨rfl, by decide, by decide, by decide, by decide, rfl, by decide,
      by decide, rfl, by decide, by decide, by decide⟩

set_option maxRecDepth 400000 in
/-- C7 at concrete inputs: a fully-fetched accumulator's `fetch_more`
is a no-op, and a first page reporting 3 items at page size 2 yields
`total_pages = ceil(3/2) = 2`. -/
theorem c7_witness :
    fetchMore series250Page fm3 1 = (.ok fm3, 0) ∧
    fetchPage (fun _ => miniPage) (ratingsInit ⟨5, none⟩) 1 =
      .ok ⟨⟨5, some miniItem⟩, ratingsOfComments miniComments, 1,
        some ⌈(3 : ℚ) / (2 : ℚ)⌉, some 3⟩ :=
  ⟨c7_ratings_pagination.2.1 series250Page fm3 1 (by decide),
   (c7_ratings_pagination.2.2.1 (fun _ => miniPage) (ratingsInit ⟨5, none⟩) 1
      ⟨5, some miniItem⟩ miniComments 3 2 rfl rfl rfl rfl rfl).1 (by norm_num)⟩

set_option maxRecDepth 400000 in
/-- C9: once a page has been fetched and the server-reported total is
known, `len()` on the accumulator returns that total rather than the
number of ratings fetched so far; before any fetch `len()` returns 0;
`__len__` and `__iter__` read only local state (they are functions of
the accumulator alone — no oracle — so they can issue no request). -/
theorem c9_len_reports_server_total :
    (∀ (r : RatingsM) (t : Int), r.total_ratings = some t → ratingsLen r = t) ∧
    (∀ g : GameM,
      ratingsLen (ratingsInit g) = 0 ∧ ratingsIter (ratingsInit g) = []) ∧
    (ratingsLen fm1 = 250 ∧ fm1.ratings.length = 100 ∧
      (ratingsIter fm1).length = 100) := by
  refine ⟨?_, ?_, ?_, ?_, ?_⟩
  · intro r t h
    simp [ratingsLen, h]
  · intro g
    exact ⟨rfl, rfl⟩
  · decide
  · decide
  · decide

set_option maxRecDepth 400000 in
/-- C9 at a concrete input: the accumulator after one page of the
250-item series. -/
theorem c9_witness : ratingsLen fm1 = 250 :=
  c9_len_reports_server_total.1 fm1 250 (by decide)

set_option maxRecDepth 400000 in
/-- C10: when the comments container is absent from a later page (here
the second), `fetch_more` sets both `total_pages` and `total_ratings`
to 0 and stops: `all_fetched` becomes true and `len()` returns 0 even
though the 100 ratings from the first page are still stored, and the
previously discovered total page count (3) is discarded. -/
theorem c10_absent_comments_resets_totals :
    tr1.total_pages = some 3 ∧ tr1.ratings.length = 100 ∧
    fetchMore truncated250Page tr1 1 = (.ok tr2, 1) ∧
    tr2.total_pages = some 0 ∧ tr2.total_ratings = some 0 ∧
    allFetched tr2 = true ∧ ratingsLen tr2 = 0 ∧
    tr2.ratings.length = 100 ∧ tr2.pages_fetched = 1 ∧
    (fetchMore truncated250Page tr2 1).2 = 0 :=
  ⟨by decide, by decide, rfl, by decide, by decide, by decide, by decide,
   by decide, by decide, by decide⟩

/-- C4 at a concrete input: a cached request leaves the timestamp at 0
and sleeps nothing. -/
theorem c4_witness :
    (request ⟨10, 2, 2, 95/100, 5⟩ ⟨2, 0⟩ "thing" true 0 true
      (respOf .netFailure)).throttle_sleep = none ∧
    (request ⟨10, 2, 2, 95/100, 5⟩ ⟨2, 0⟩ "thing" true 0 true
      (respOf .netFailure)).state.last_request_time = 0 :=
  c4_cached_requests_skip_throttle ⟨10, 2, 2, 95/100, 5⟩ ⟨2, 0⟩ "thing" 0 true
    (respOf .netFailure)
